import Mathlib

/-!
# Verification of the browser-chat session transport of ai-call-center

This file gives a shallow embedding, in Lean 4, of the browser-chat
protocol-translation layer of the ai-call-center repository, and proves
(or refutes) the testable properties stated for it.

The embedded code is, faithfully:

* `BrowserChatSessionService` (src/application/services/browser-chat-session.service.ts):
  the service owning one browser WebSocket and one upstream RealtimeSession.
  Its per-event handlers are pure functions of the service state, so each
  handler is translated as a Lean function returning the emitted upstream
  events and the emitted client frames.
* `ChatUI` (src/presentation/public/chat.ts): the browser client; its
  `handleServerMessage` dispatch is translated as a step function over the
  UI state (message list plus `currentAssistantMessage` accumulator).
* `ChatController.handleChatStream` (the chat controller in
  src/presentation/routes/call.routes.ts): translated both as a linear
  action trace (the statements of the method in program order, for the
  two outcomes of the upstream handshake) and as a small event-step
  system (`stepConn`/`runConn`) in which the resolution of the awaited
  upstream handshake can interleave with the close event of the browser
  socket, exactly as in the Node event loop.
* `BrowserChatTransportLayer.send` (the event-emitter transport variant):
  the upstream-to-browser translation of the sibling transport
  implementation, used to witness the intended wire protocol.

JavaScript data is modelled as follows: a frame written to the client is a
`Frame` record mirroring the object literals of the source (a `type` tag
plus the optional fields the source ever sets); JSON.parse of an inbound
client frame either throws (constructor `RawFrame.malformed`) or yields a
`type` tag and an optional `content` field; JS truthiness of an optional
string field is `none`-or-empty-string falsy.
-/

namespace AICallCenter

/-- The `status` field of `BrowserChatSessionService`
(`'connected' | 'disconnected' | 'connecting' | 'disconnecting'`). -/
inductive Status where
  | connected
  | disconnected
  | connecting
  | disconnecting
deriving DecidableEq, Repr

/-- A server-to-client JSON frame, mirroring the object literals the source
passes to `webSocket.send(JSON.stringify(...))`.  Fields the source does not
set on a given literal are `none` (absent in the JSON object). -/
structure Frame where
  type : String
  text : Option String := none
  delta : Option String := none
  message : Option String := none
  error : Option String := none
deriving DecidableEq, Repr

/-- An event sent upstream to the OpenAI realtime transport by
`realtimeSession.transport.sendEvent`. -/
inductive UpstreamSendEvent where
  | conversationItemCreate (role : String) (text : String)
  | responseCreate
deriving DecidableEq, Repr

/-- An event received from the upstream transport by the handlers that
`setupRealTimeSessionEventsHandlers` registers: `response.text.delta`
(field `delta`), `response.text.done` (field `text`), and `error`.
Optional fields model the loosely typed `OpenAIMessage` payloads. -/
inductive UpstreamRecvEvent where
  | textDelta (delta : Option String)
  | textDone (text : Option String)
  | errorEvent
deriving DecidableEq, Repr

/-- An inbound client frame as seen by the `message` listener: either
`JSON.parse` throws (`malformed`), or it yields an object with a `type`
tag and an optional `content` field. -/
inductive RawFrame where
  | malformed
  | parsed (type : String) (content : Option String)
deriving DecidableEq, Repr

/-- JS truthiness of the optional string field `message.content`:
absent and empty string are falsy. -/
def truthy : Option String → Bool
  | none => false
  | some s => s ≠ ""

namespace BrowserChatSessionService

/-- The mutable fields of `BrowserChatSessionService`:
`realtimeSession` (a reference, modelled by an identifier), `isConnected`,
and `status`.  The browser socket itself is kept outside (its `readyState`
is passed where the source reads it). -/
structure SessionState where
  realtimeSession : Option Nat
  isConnected : Bool
  status : Status
deriving DecidableEq, Repr

/-- The state of the service right after its constructor ran
(`setupBrowserEventsHandlers` ends with `this.status = 'connected'`;
no upstream session exists yet). -/
def freshState : SessionState :=
  { realtimeSession := none, isConnected := false, status := .connected }

/-- The state during an active session: `createAndConnectSession` stored the
`RealtimeSession` and the awaited `connect` resolved (`isConnected = true`). -/
def activeState : SessionState :=
  { realtimeSession := some 0, isConnected := true, status := .connected }

/-- `sendToBrowser(data)`: writes the frame to the browser socket only when
`this.status === 'connected' && this.browserWebSocket.readyState === 1`;
otherwise the frame is dropped.  The result is the list of frames actually
written (empty or a singleton). -/
def sendToBrowser (st : SessionState) (readyState : Nat) (f : Frame) : List Frame :=
  if st.status = .connected ∧ readyState = 1 then [f] else []

/-- `sendMessage(messageContent)`: if there is no `realtimeSession` or
`isConnected` is false, reports a `Not connected to OpenAI` error frame and
forwards nothing; otherwise sends `conversation.item.create` (role `user`,
the message text) followed by `response.create` upstream.  Returns the
upstream events sent and the client frames written. -/
def sendMessage (st : SessionState) (readyState : Nat) (messageContent : String) :
    List UpstreamSendEvent × List Frame :=
  if st.realtimeSession.isNone ∨ st.isConnected = false then
    ([], sendToBrowser st readyState { type := "error", message := some "Not connected to OpenAI" })
  else
    ([.conversationItemCreate "user" messageContent, .responseCreate], [])

/-- The `message` listener installed by `setupBrowserEventsHandlers`:
parse failure is caught and reported as an error frame; `ping` is answered
with `pong`; `message` with truthy `content` is forwarded via `sendMessage`;
anything else (including `message` with missing or empty `content`) does
nothing.  The handler never mutates the service state, so the unchanged
state is returned alongside the emitted upstream events and client frames. -/
def onBrowserMessage (st : SessionState) (readyState : Nat) (raw : RawFrame) :
    SessionState × List UpstreamSendEvent × List Frame :=
  match raw with
  | .malformed =>
      (st, [], sendToBrowser st readyState { type := "error", message := some "Failed to parse message" })
  | .parsed t content =>
      if t = "ping" then
        (st, [], sendToBrowser st readyState { type := "pong" })
      else if t = "message" ∧ truthy content then
        let (events, frames) := sendMessage st readyState (content.getD "")
        (st, events, frames)
      else
        (st, [], [])

/-- Back-to-back processing of a list of inbound client frames.  Each
socket `message` event runs its (fully synchronous) handler to completion
before the next one is dispatched, so the emitted upstream events and
client frames are concatenated in arrival order. -/
def processBrowserMessages (st : SessionState) (readyState : Nat) :
    List RawFrame → List UpstreamSendEvent × List Frame
  | [] => ([], [])
  | m :: ms =>
      let (st1, events, frames) := onBrowserMessage st readyState m
      let (restEvents, restFrames) := processBrowserMessages st1 readyState ms
      (events ++ restEvents, frames ++ restFrames)

/-- The handlers registered by `setupRealTimeSessionEventsHandlers` on the
upstream transport, as one dispatch on the received event:
`response.text.delta` writes an `assistant.message.delta` frame whose `text`
field is `event.delta || ''`; `response.text.done` writes an
`assistant.message` frame whose `text` field is `event.text || ''` followed
by a `response.done` frame; `error` writes an `OpenAI API error` frame. -/
def onUpstreamEvent (st : SessionState) (readyState : Nat) :
    UpstreamRecvEvent → List Frame
  | .textDelta d =>
      sendToBrowser st readyState { type := "assistant.message.delta", text := some (d.getD "") }
  | .textDone t =>
      sendToBrowser st readyState { type := "assistant.message", text := some (t.getD "") } ++
      sendToBrowser st readyState { type := "response.done" }
  | .errorEvent =>
      sendToBrowser st readyState { type := "error", message := some "OpenAI API error" }

/-- All frames written for a sequence of upstream events processed in
arrival order (the handlers do not mutate the service state). -/
def framesOfUpstreamEvents (st : SessionState) (readyState : Nat)
    (events : List UpstreamRecvEvent) : List Frame :=
  (events.map (onUpstreamEvent st readyState)).flatten

/-- An observable side effect of the teardown paths: releasing the upstream
session reference (`disconnect` clearing `isConnected` and dropping
`realtimeSession`), invoking `browserWebSocket.close()`, or an actual
removal of the session entry from the controller registry map
(`Map.delete` removes an entry only when the key is present). -/
inductive Effect where
  | releaseUpstream
  | closeBrowserSocket
  | registryRemove
deriving DecidableEq, Repr

/-- `disconnect()`: only when a `realtimeSession` exists and `isConnected`
is true does it clear `isConnected` and drop the `realtimeSession`
reference (effect `releaseUpstream`); otherwise it does nothing.  It never
invokes any close method on the upstream handle itself. -/
def disconnect (st : SessionState) : SessionState × List Effect :=
  if st.realtimeSession.isSome ∧ st.isConnected = true then
    ({ st with isConnected := false, realtimeSession := none }, [.releaseUpstream])
  else
    (st, [])

/-- The `close` listener installed by `setupBrowserEventsHandlers` on the
browser socket: sets `status` to `disconnected`, then calls `disconnect`. -/
def onBrowserClose (st : SessionState) : SessionState × List Effect :=
  disconnect { st with status := .disconnected }

/-- `close()`: a no-op when `status` is already `disconnected`; otherwise
sets `status` to `disconnecting`, calls `disconnect`, closes the browser
socket when its `readyState` is 1 (the socket then leaves `readyState` 1),
and finally sets `status` to `disconnected`.  Returns the new state, the
new socket `readyState`, and the effects performed. -/
def close (st : SessionState) (readyState : Nat) :
    SessionState × Nat × List Effect :=
  if st.status ≠ .disconnected then
    let d := disconnect { st with status := .disconnecting }
    let socket : Nat × List Effect :=
      if readyState = 1 then (3, [.closeBrowserSocket]) else (readyState, [])
    ({ d.1 with status := .disconnected }, socket.1, d.2 ++ socket.2)
  else
    (st, readyState, [])

end BrowserChatSessionService

namespace ChatUI

/-- The sender class of a message element in the chat DOM. -/
inductive Sender where
  | user
  | assistant
  | system
deriving DecidableEq, Repr

/-- The state of the browser `ChatUI`: the list of message elements in the
chat container (sender class and text content, in document order; the
`lastMessageElement` is the last entry) and the `currentAssistantMessage`
accumulator. -/
structure UIState where
  messages : List (Sender × String)
  currentAssistantMessage : String
deriving DecidableEq, Repr

/-- The `ChatUI` state on page load: no messages, empty accumulator. -/
def initState : UIState := { messages := [], currentAssistantMessage := "" }

/-- `addMessage(content, sender)`: appends a new message element. -/
def addMessage (st : UIState) (content : String) (sender : Sender) : UIState :=
  { st with messages := st.messages ++ [(sender, content)] }

/-- `updateLastMessage(content, sender)`: if the last message element exists
and carries the same sender class, replace its text content; otherwise
append a new message element. -/
def updateLastMessage (st : UIState) (content : String) (sender : Sender) : UIState :=
  match st.messages.getLast? with
  | some last =>
      if last.1 = sender then
        { st with messages := st.messages.dropLast ++ [(sender, content)] }
      else
        addMessage st content sender
  | none => addMessage st content sender

/-- `handleServerMessage(message)`: the dispatch on the `type` tag of a
frame received from the server.  `text.delta` appends a truthy `delta` to
the accumulator and displays it; `text.done` and `assistant.message` set
the accumulator to a truthy `text` and display it; `response.done` resets
the accumulator; `error` appends a system message; any other tag (there is
no default branch in the switch) changes nothing. -/
def handleServerMessage (st : UIState) (f : Frame) : UIState :=
  if f.type = "pong" then st
  else if f.type = "text.delta" then
    if truthy f.delta then
      let acc := st.currentAssistantMessage ++ f.delta.getD ""
      updateLastMessage { st with currentAssistantMessage := acc } acc .assistant
    else st
  else if f.type = "text.done" ∨ f.type = "assistant.message" then
    if truthy f.text then
      updateLastMessage { st with currentAssistantMessage := f.text.getD "" }
        (f.text.getD "") .assistant
    else st
  else if f.type = "response.done" then
    { st with currentAssistantMessage := "" }
  else if f.type = "error" then
    addMessage st "Sorry, an error occurred. Please try again." .system
  else st

/-- Processing of a sequence of server frames in arrival order. -/
def run (st : UIState) (fs : List Frame) : UIState :=
  fs.foldl handleServerMessage st

end ChatUI

namespace BrowserChatTransportLayer

/-- The loosely typed message object the sibling transport implementation
receives from the OpenAI side in its `send` method: a `type` tag plus the
optional fields the switch reads (`delta`, `text`, `transcript`, `error`,
and `item?.role` / `item?.content?.[0]?.text`). -/
structure TransportMessage where
  type : String
  delta : Option String := none
  text : Option String := none
  transcript : Option String := none
  error : Option String := none
  itemRole : Option String := none
  itemText : Option String := none
deriving DecidableEq, Repr

/-- The transport layer variant of `sendToBrowser`: writes only when the
`connected` flag is set and the socket `readyState` is 1. -/
def sendToBrowser (connected : Bool) (readyState : Nat) (f : Frame) : List Frame :=
  if connected = true ∧ readyState = 1 then [f] else []

/-- `BrowserChatTransportLayer.send(message)`: the upstream-to-browser
translation switch of the sibling (event-emitter) transport
implementation.  Text and transcript deltas become `text.delta` frames
carrying the field `delta`; done events become `text.done` frames carrying
`message.text || message.transcript`; `response.done` and `error` are
forwarded; an assistant `conversation.item.created` with truthy item text
becomes an `assistant.message` frame; unmatched tags fall through the
switch and emit nothing. -/
def send (connected : Bool) (readyState : Nat) (m : TransportMessage) : List Frame :=
  if m.type = "response.audio_transcript.delta" ∨ m.type = "response.text.delta" then
    sendToBrowser connected readyState { type := "text.delta", delta := m.delta }
  else if m.type = "response.audio_transcript.done" ∨ m.type = "response.text.done" then
    sendToBrowser connected readyState
      { type := "text.done", text := if truthy m.text then m.text else m.transcript }
  else if m.type = "response.done" then
    sendToBrowser connected readyState { type := "response.done" }
  else if m.type = "error" then
    sendToBrowser connected readyState { type := "error", error := m.error }
  else if m.type = "conversation.item.created" then
    if m.itemRole = some "assistant" ∧ truthy m.itemText then
      sendToBrowser connected readyState { type := "assistant.message", text := m.itemText }
    else []
  else []

end BrowserChatTransportLayer

namespace ChatController

open BrowserChatSessionService

/-- The `{ type: 'connected' }` confirmation frame the controller writes
directly with `webSocket.send` in `handleChatStream`. -/
def connectedFrame : Frame := { type := "connected" }

/-- The `{ type: 'openai_connected' }` frame `createAndConnectSession`
sends (through `sendToBrowser`) once the upstream connect resolved. -/
def openaiConnectedFrame : Frame := { type := "openai_connected" }

/-- The error frame the `catch` of `createAndConnectSession` sends
(through `sendToBrowser`) when the upstream connect fails. -/
def connectFailedFrame : Frame :=
  { type := "error", message := some "Failed to connect to OpenAI" }

/-- One statement of `ChatController.handleChatStream` (with the inlined
body of `createAndConnectSession`), in program order: insert the session
into the registry map, start the awaited upstream connect, observe it
resolve, emit a frame (`guarded` says whether it goes through
`sendToBrowser`), install the controller close/error listeners, or run a
cleanup statement of the `catch` branch. -/
inductive Action where
  | registerSession
  | connectStart
  | connectResolved (success : Bool)
  | emit (guarded : Bool) (f : Frame)
  | installCloseHandler
  | installErrorHandler
  | closeSession
  | deregisterSession
  | closeSocket
deriving DecidableEq, Repr

/-- The statements of `handleChatStream` in the order they execute, for
the two outcomes of the awaited upstream handshake.  On success:
`sessions.set`; `await createAndConnectSession` (which, after the await
resolves, sends `openai_connected` through `sendToBrowser`); then the
direct `webSocket.send` of the `connected` frame; then the registration of
the `close` and `error` listeners.  On failure: the `catch` of
`createAndConnectSession` sends an error frame through `sendToBrowser` and
rethrows, and the `catch` of `handleChatStream` closes the session,
deletes it from the registry, and closes the socket. -/
def handleChatStreamTrace (success : Bool) : List Action :=
  if success then
    [.registerSession, .connectStart, .connectResolved true,
     .emit true openaiConnectedFrame, .emit false connectedFrame,
     .installCloseHandler, .installErrorHandler]
  else
    [.registerSession, .connectStart, .connectResolved false,
     .emit true connectFailedFrame,
     .closeSession, .deregisterSession, .closeSocket]

/-- The state of one browser connection as it evolves through the
controller and service code: whether `handleChatStream` has started,
the service state, whether the registry map holds the entry, whether the
controller close/error listeners are installed (they are installed only
after the awaited handshake resolves successfully), whether the browser
socket is open (`readyState` 1), and whether the awaited upstream connect
is still pending. -/
structure Conn where
  started : Bool
  session : SessionState
  inRegistry : Bool
  handlersInstalled : Bool
  socketOpen : Bool
  connectPending : Bool
deriving DecidableEq, Repr

/-- A connection before `handleChatStream` runs: the socket was accepted
(open) and nothing else happened; the service field initializers give
`status = 'disconnected'`. -/
def initConn : Conn :=
  { started := false
    session := { realtimeSession := none, isConnected := false, status := .disconnected }
    inRegistry := false
    handlersInstalled := false
    socketOpen := true
    connectPending := false }

/-- A record of one attempted write to the browser socket: whether it went
through the `sendToBrowser` guard, the frame, and the service `status` and
socket state at the moment of the write. -/
structure EmitRec where
  guarded : Bool
  frame : Frame
  status : Status
  socketOpen : Bool
deriving DecidableEq, Repr

/-- The `readyState` of the browser socket: 1 while open, 3 once closed. -/
def readyOf (socketOpen : Bool) : Nat := if socketOpen then 1 else 3

/-- The emissions produced by one `sendToBrowser` call, recorded with the
state at the time of the call. -/
def guardedEmits (st : SessionState) (socketOpen : Bool) (f : Frame) : List EmitRec :=
  (sendToBrowser st (readyOf socketOpen) f).map
    (fun fr => { guarded := true, frame := fr, status := st.status, socketOpen := socketOpen })

/-- The events the Node event loop can dispatch for one connection:
the synchronous prefix of `handleChatStream` up to the awaited upstream
connect, the resolution of that await (success or failure), and the
`close` event of the browser socket. -/
inductive Ev where
  | start
  | connectResolved (success : Bool)
  | clientClose
deriving DecidableEq, Repr

/-- One event-loop dispatch.

`start`: the service constructor runs (`status := 'connected'`), the
controller inserts the session into the registry, and
`createAndConnectSession` stores the new `RealtimeSession` and suspends on
the awaited `connect`.

`connectResolved true`: the continuation after the await: `isConnected :=
true`, `sendToBrowser(openai_connected)`, then back in `handleChatStream`
the direct unguarded `webSocket.send(connected)` and the installation of
the controller close/error listeners.

`connectResolved false`: the `catch` branches: a guarded error frame, then
`close()`, registry delete and `webSocket.close()`.

`clientClose`: the socket `close` event, dispatched to the listeners
installed at that moment: always the service close listener from the
constructor, and the controller close listener only when it was installed
(that is, only when the handshake resolved successfully earlier). -/
def stepConn (c : Conn) : Ev → Conn × List EmitRec
  | .start =>
      if c.started then (c, [])
      else
        ({ c with
            started := true
            session := { realtimeSession := some 0, isConnected := false, status := .connected }
            inRegistry := true
            connectPending := true }, [])
  | .connectResolved ok =>
      if ¬ c.connectPending then (c, [])
      else if ok then
        let st1 := { c.session with isConnected := true }
        let e1 := guardedEmits st1 c.socketOpen openaiConnectedFrame
        let e2 : List EmitRec :=
          [{ guarded := false, frame := connectedFrame
             status := st1.status, socketOpen := c.socketOpen }]
        ({ c with
            session := st1
            connectPending := false
            handlersInstalled := true }, e1 ++ e2)
      else
        let e1 := guardedEmits c.session c.socketOpen connectFailedFrame
        let closed := close c.session (readyOf c.socketOpen)
        ({ c with
            session := closed.1
            connectPending := false
            inRegistry := false
            socketOpen := false }, e1)
  | .clientClose =>
      if ¬ c.started then ({ c with socketOpen := false }, [])
      else
        let st1 := (onBrowserClose c.session).1
        let c1 := { c with socketOpen := false, session := st1 }
        if c.handlersInstalled then
          let st2 :=
            if c1.inRegistry then (close st1 (readyOf false)).1 else st1
          ({ c1 with session := st2, inRegistry := false }, [])
        else
          (c1, [])

/-- Running a sequence of event-loop dispatches, accumulating the emitted
writes in order. -/
def runConn : Conn → List Ev → Conn × List EmitRec
  | c, [] => (c, [])
  | c, e :: es =>
      let s := stepConn c e
      let r := runConn s.1 es
      (r.1, s.2 ++ r.2)

/-- The registry invariant claimed by the specification: the session is in
the registry map exactly when it is not in the terminal (`disconnected`)
state. -/
def registryInvariant (c : Conn) : Prop :=
  c.inRegistry = true ↔ c.session.status ≠ .disconnected

/-- The state of the controller teardown bookkeeping for one connection:
whether the registry map still holds the entry, the service state, and the
browser socket `readyState`. -/
structure Teardown where
  reg : Bool
  st : SessionState
  readyState : Nat
deriving DecidableEq, Repr

/-- One run of the controller cleanup block (the body shared by the
`close` handler, the `error` handler and the `catch` of
`handleChatStream`): look the session up in the registry map (it is found
exactly when the entry is present), call `close()` on it if found, then
`sessions.delete` (which removes an entry, effect `registryRemove`, only
when the key is present). -/
def cleanup (t : Teardown) : Teardown × List Effect :=
  let closed :=
    if t.reg then close t.st t.readyState else (t.st, t.readyState, [])
  let removeEffects : List Effect := if t.reg then [.registryRemove] else []
  ({ reg := false, st := closed.1, readyState := closed.2.1 },
   closed.2.2 ++ removeEffects)

end ChatController

section Claims

open BrowserChatSessionService ChatController

/-- The service state while the upstream handshake of
`createAndConnectSession` is still pending: the `RealtimeSession` is
stored but `isConnected` is still false. -/
def initializingState : SessionState :=
  { realtimeSession := some 0, isConnected := false, status := .connected }

/-- A `message` frame with truthy content, in a state with a stored and
connected upstream session, forwards exactly the ordered pair
`conversation.item.create` then `response.create` and nothing else. -/
lemma onBrowserMessage_userText (st : SessionState) (readyState : Nat) (c : String)
    (hsess : st.realtimeSession.isSome = true) (hconn : st.isConnected = true)
    (hc : c ≠ "") :
    onBrowserMessage st readyState (.parsed "message" (some c)) =
      (st, [.conversationItemCreate "user" c, .responseCreate], []) := by
  obtain ⟨v, hv⟩ := Option.isSome_iff_exists.mp hsess
  simp [onBrowserMessage, sendMessage, truthy, hc, hconn, hv]

/-- Back-to-back `message` frames in a connected state produce the
concatenation of the per-message event pairs, in arrival order. -/
lemma processBrowserMessages_userText (st : SessionState) (readyState : Nat)
    (hsess : st.realtimeSession.isSome = true) (hconn : st.isConnected = true) :
    ∀ contents : List String, (∀ c ∈ contents, c ≠ "") →
      (processBrowserMessages st readyState
          (contents.map (fun c => .parsed "message" (some c)))).1 =
        contents.flatMap
          (fun c => [UpstreamSendEvent.conversationItemCreate "user" c, .responseCreate]) := by
  intro contents
  induction contents with
  | nil => intro _; simp [processBrowserMessages]
  | cons c cs ih =>
      intro hne
      have hc : c ≠ "" := hne c (by simp)
      have hcs : ∀ x ∈ cs, x ≠ "" := fun x hx => hne x (by simp [hx])
      simp only [List.map_cons, processBrowserMessages,
        onBrowserMessage_userText st readyState c hsess hconn hc, List.flatMap_cons]
      rw [ih hcs]

/-- C1: in a connected session, every `message` frame with non-empty
content sends exactly two upstream events, `conversation.item.create`
(role `user`, the message text) followed by `response.create`; and a
back-to-back sequence of such frames yields the concatenation of the
per-message pairs in arrival order, so no pair is interleaved with
another message's events (each socket `message` event runs its fully
synchronous handler to completion before the next is dispatched). -/
theorem userText_pairs_ordered_and_uninterleaved (st : SessionState)
    (readyState : Nat) (c0 : String) (contents : List String)
    (hsess : st.realtimeSession.isSome = true) (hconn : st.isConnected = true)
    (hc0 : c0 ≠ "") (hne : ∀ c ∈ contents, c ≠ "") :
    onBrowserMessage st readyState (.parsed "message" (some c0)) =
      (st, [.conversationItemCreate "user" c0, .responseCreate], []) ∧
    (processBrowserMessages st readyState
        (contents.map (fun c => .parsed "message" (some c)))).1 =
      contents.flatMap
        (fun c => [UpstreamSendEvent.conversationItemCreate "user" c, .responseCreate]) :=
  ⟨onBrowserMessage_userText st readyState c0 hsess hconn hc0,
   processBrowserMessages_userText st readyState hsess hconn contents hne⟩

/-- Witness for C1 at a concrete connected state and two concrete
messages. -/
theorem userText_pairs_ordered_and_uninterleaved_witness :
    (activeState.realtimeSession.isSome = true ∧ activeState.isConnected = true ∧
      ("hello" : String) ≠ "" ∧ ∀ c ∈ (["hello", "again"] : List String), c ≠ "") ∧
    ((processBrowserMessages activeState 1
        ((["hello", "again"] : List String).map (fun c => .parsed "message" (some c)))).1 =
      (["hello", "again"] : List String).flatMap
        (fun c => [UpstreamSendEvent.conversationItemCreate "user" c, .responseCreate])) :=
  ⟨⟨by decide, by decide, by decide, by decide⟩,
   (userText_pairs_ordered_and_uninterleaved activeState 1 "hello" ["hello", "again"]
      (by decide) (by decide) (by decide) (by decide)).2⟩

/-- Counterexample to C4: a `message` frame arriving while the upstream
handshake is pending (`isConnected` still false) is answered with a
`Not connected to OpenAI` error frame, produces no upstream event, and
leaves the state unchanged — the service state has no queue, so nothing
is retained to be replayed after the connection succeeds. -/
theorem initializing_message_dropped_counterexample :
    onBrowserMessage initializingState 1 (.parsed "message" (some "hello")) =
      (initializingState, [],
        [{ type := "error", message := some "Not connected to OpenAI" }]) := by
  decide

/-- C4 as amended: while the upstream connection is not yet established,
a client `message` with non-empty content is rejected with exactly one
`Not connected to OpenAI` error frame and dropped: no upstream event is
ever emitted for it and the state is unchanged, so nothing is replayed
once the connection succeeds. -/
theorem initializing_message_rejected_not_queued (st : SessionState)
    (readyState : Nat) (c : String) (hnc : st.isConnected = false)
    (hst : st.status = .connected) (hready : readyState = 1) (hc : c ≠ "") :
    onBrowserMessage st readyState (.parsed "message" (some c)) =
      (st, [], [{ type := "error", message := some "Not connected to OpenAI" }]) := by
  subst hready
  simp [onBrowserMessage, sendMessage, sendToBrowser, truthy, hc, hnc, hst]

/-- Witness for the amended C4 at the concrete initializing state. -/
theorem initializing_message_rejected_not_queued_witness :
    (initializingState.isConnected = false ∧ initializingState.status = .connected ∧
      (1 : Nat) = 1 ∧ ("hello" : String) ≠ "") ∧
    onBrowserMessage initializingState 1 (.parsed "message" (some "hello")) =
      (initializingState, [],
        [{ type := "error", message := some "Not connected to OpenAI" }]) :=
  ⟨⟨by decide, by decide, rfl, by decide⟩,
   initializing_message_rejected_not_queued initializingState 1 "hello"
     (by decide) (by decide) rfl (by decide)⟩

/-- Counterexample to C6: a `{"type":"message"}` frame with empty content,
received in a fully active session, produces no error frame at all (and no
frame and no upstream event whatsoever) — the handler's
`message.type === 'message' && message.content` test silently skips it,
so the claimed single error frame is not sent. -/
theorem empty_content_no_error_frame_counterexample :
    onBrowserMessage activeState 1 (.parsed "message" (some "")) =
      (activeState, [], []) := by
  decide

/-- C6 as amended: a non-JSON client frame yields exactly one error frame
(`Failed to parse message`), no upstream event and no state change; a
`message` frame with missing or empty content yields no frame and no
upstream event at all; in both cases the session stays as it was, and a
valid message processed right after a malformed frame yields its normal
`conversation.item.create` / `response.create` pair. -/
theorem malformed_recoverable_empty_content_silently_ignored
    (st : SessionState) (readyState : Nat) (c : String)
    (hsess : st.realtimeSession.isSome = true) (hconn : st.isConnected = true)
    (hst : st.status = .connected) (hready : readyState = 1) (hc : c ≠ "") :
    onBrowserMessage st readyState .malformed =
      (st, [], [{ type := "error", message := some "Failed to parse message" }]) ∧
    onBrowserMessage st readyState (.parsed "message" (some "")) = (st, [], []) ∧
    onBrowserMessage st readyState (.parsed "message" none) = (st, [], []) ∧
    processBrowserMessages st readyState [.malformed, .parsed "message" (some c)] =
      ([.conversationItemCreate "user" c, .responseCreate],
       [{ type := "error", message := some "Failed to parse message" }]) := by
  subst hready
  refine ⟨?_, ?_, ?_, ?_⟩
  · simp [onBrowserMessage, sendToBrowser, hst]
  · simp [onBrowserMessage, truthy]
  · simp [onBrowserMessage, truthy]
  · obtain ⟨v, hv⟩ := Option.isSome_iff_exists.mp hsess
    simp [processBrowserMessages, onBrowserMessage, sendToBrowser, hst, truthy, hc,
      sendMessage, hconn, hv]

/-- Witness for the amended C6 at the concrete active state. -/
theorem malformed_recoverable_empty_content_silently_ignored_witness :
    (activeState.realtimeSession.isSome = true ∧ activeState.isConnected = true ∧
      activeState.status = .connected ∧ (1 : Nat) = 1 ∧ ("hi" : String) ≠ "") ∧
    processBrowserMessages activeState 1 [.malformed, .parsed "message" (some "hi")] =
      ([.conversationItemCreate "user" "hi", .responseCreate],
       [{ type := "error", message := some "Failed to parse message" }]) :=
  ⟨⟨by decide, by decide, by decide, rfl, by decide⟩,
   (malformed_recoverable_empty_content_silently_ignored activeState 1 "hi"
      (by decide) (by decide) (by decide) rfl (by decide)).2.2.2⟩

/-- The frames the service writes for a run of text deltas followed by a
text done event, in a connected state with an open socket: one
`assistant.message.delta` frame per delta, then the `assistant.message`
frame with the done text, then `response.done`. -/
lemma framesOfUpstreamEvents_delta_done (st : SessionState)
    (hst : st.status = .connected) (deltas : List (Option String)) (s : Option String) :
    framesOfUpstreamEvents st 1
        (deltas.map UpstreamRecvEvent.textDelta ++ [UpstreamRecvEvent.textDone s]) =
      deltas.map (fun d =>
        { type := "assistant.message.delta", text := some (d.getD "") }) ++
      [{ type := "assistant.message", text := some (s.getD "") },
       { type := "response.done" }] := by
  induction deltas with
  | nil => simp [framesOfUpstreamEvents, onUpstreamEvent, sendToBrowser, hst]
  | cons d ds ih =>
      simpa [framesOfUpstreamEvents, onUpstreamEvent, sendToBrowser, hst] using ih

/-- The browser client leaves its state unchanged on an
`assistant.message.delta` frame: that tag matches no case of the
`handleServerMessage` switch. -/
lemma handleServerMessage_assistantMessageDelta (ui : ChatUI.UIState)
    (t : Option String) :
    ChatUI.handleServerMessage ui { type := "assistant.message.delta", text := t } = ui := by
  simp [ChatUI.handleServerMessage]

/-- Unfolding of the client run on a first frame. -/
lemma run_cons (ui : ChatUI.UIState) (f : Frame) (fs : List Frame) :
    ChatUI.run ui (f :: fs) = ChatUI.run (ChatUI.handleServerMessage ui f) fs := rfl

/-- Folding the client over any run of `assistant.message.delta` frames
changes nothing. -/
lemma run_assistantMessageDeltas (deltas : List (Option String)) :
    ∀ ui : ChatUI.UIState,
      ChatUI.run ui (deltas.map (fun d =>
          { type := "assistant.message.delta", text := some (d.getD "") })) = ui := by
  induction deltas with
  | nil => intro ui; simp [ChatUI.run]
  | cons d ds ih =>
      intro ui
      rw [List.map_cons, run_cons, handleServerMessage_assistantMessageDelta]
      exact ih ui

/-- After `updateLastMessage`, the last message element carries the given
sender and content, whatever the previous display was. -/
lemma updateLastMessage_getLast (ui : ChatUI.UIState) (c : String)
    (sender : ChatUI.Sender) :
    (ChatUI.updateLastMessage ui c sender).messages.getLast? = some (sender, c) := by
  unfold ChatUI.updateLastMessage ChatUI.addMessage
  cases h : ui.messages.getLast? with
  | none => simp
  | some last =>
      by_cases hs : last.1 = sender
      · simp [h, hs, List.getLast?_append_cons]
      · simp [h, hs, List.getLast?_append_cons]

/-- C2 as amended: for any run of upstream `TextDelta` events followed by
`TextDone` with non-empty text `s`, processed in a connected state with an
open socket, exactly one `assistant.message` frame is sent to the client
and it carries `s`; and after the client processes the produced frames,
the displayed assistant message (the last message element) is exactly `s`,
whatever the deltas were — the done text is authoritative.  (In this
pipeline the deltas reach the client as `assistant.message.delta` frames
that its switch ignores, so the delta concatenation never displaces `s`;
the `response.done` frame then clears only the client accumulator for the
next turn, as specified, leaving the display at `s`.) -/
theorem textDone_authoritative (st : SessionState) (deltas : List (Option String))
    (s : String) (ui : ChatUI.UIState) (hst : st.status = .connected) (hs : s ≠ "") :
    (framesOfUpstreamEvents st 1
        (deltas.map UpstreamRecvEvent.textDelta ++
          [UpstreamRecvEvent.textDone (some s)])).filter
        (fun f => decide (f.type = "assistant.message")) =
      [{ type := "assistant.message", text := some s }] ∧
    (ChatUI.run ui
        (framesOfUpstreamEvents st 1
          (deltas.map UpstreamRecvEvent.textDelta ++
            [UpstreamRecvEvent.textDone (some s)]))).messages.getLast? =
      some (ChatUI.Sender.assistant, s) := by
  rw [framesOfUpstreamEvents_delta_done st hst deltas (some s)]
  simp only [Option.getD_some]
  constructor
  · rw [List.filter_append]
    have hdeltas : (deltas.map (fun d =>
        ({ type := "assistant.message.delta", text := some (d.getD "") } : Frame))).filter
        (fun f => decide (f.type = "assistant.message")) = [] := by
      induction deltas with
      | nil => simp
      | cons d ds ih => simp [ih]
    simp [hdeltas]
  · have hsplit : ChatUI.run ui
        (deltas.map (fun d =>
          ({ type := "assistant.message.delta", text := some (d.getD "") } : Frame)) ++
         [{ type := "assistant.message", text := some s }, { type := "response.done" }]) =
        ChatUI.run (ChatUI.run ui (deltas.map (fun d =>
          ({ type := "assistant.message.delta", text := some (d.getD "") } : Frame))))
          [{ type := "assistant.message", text := some s }, { type := "response.done" }] := by
      simp [ChatUI.run]
    rw [hsplit, run_assistantMessageDeltas]
    simp [ChatUI.run, ChatUI.handleServerMessage, truthy, hs, updateLastMessage_getLast]

/-- Witness for the amended C2: deltas concatenating to `Hi there` but a
done text `Bye`; the client display ends at `Bye`. -/
theorem textDone_authoritative_witness :
    (activeState.status = .connected ∧ ("Bye" : String) ≠ "") ∧
    ((framesOfUpstreamEvents activeState 1
        (([some "Hi", some " there"] : List (Option String)).map UpstreamRecvEvent.textDelta ++
          [UpstreamRecvEvent.textDone (some "Bye")])).filter
        (fun f => decide (f.type = "assistant.message")) =
      [{ type := "assistant.message", text := some "Bye" }] ∧
    (ChatUI.run ChatUI.initState
        (framesOfUpstreamEvents activeState 1
          (([some "Hi", some " there"] : List (Option String)).map UpstreamRecvEvent.textDelta ++
            [UpstreamRecvEvent.textDone (some "Bye")]))).messages.getLast? =
      some (ChatUI.Sender.assistant, "Bye")) :=
  ⟨⟨by decide, by decide⟩,
   textDone_authoritative activeState [some "Hi", some " there"] "Bye" ChatUI.initState
     (by decide) (by decide)⟩

/-- Counterexample to C2 as stated: with deltas `Hi` and a `TextDone`
carrying the empty string, the `assistant.message` frame (carrying the
empty text) is sent, but the client displays no assistant message at all —
its switch applies only truthy `text`, so the display does not end up
equal to the done text. -/
theorem textDone_empty_counterexample :
    (framesOfUpstreamEvents activeState 1
        [UpstreamRecvEvent.textDelta (some "Hi"),
         UpstreamRecvEvent.textDone (some "")]).filter
        (fun f => decide (f.type = "assistant.message")) =
      [{ type := "assistant.message", text := some "" }] ∧
    (ChatUI.run ChatUI.initState
        (framesOfUpstreamEvents activeState 1
          [UpstreamRecvEvent.textDelta (some "Hi"),
           UpstreamRecvEvent.textDone (some "")])).messages = [] ∧
    (ChatUI.run ChatUI.initState
        (framesOfUpstreamEvents activeState 1
          [UpstreamRecvEvent.textDelta (some "Hi"),
           UpstreamRecvEvent.textDone (some "")])).messages.getLast? ≠
      some (ChatUI.Sender.assistant, "") := by
  decide

/-- Counterexample to C3: in the success trace of `handleChatStream`, the
first three actions are registration, the start of the upstream connect
and its resolution, and the `connected` frame is not among them — it is
emitted only after the upstream connection is established; and in the
failure trace the `connected` frame is never emitted at all, so a client
whose upstream handshake fails never receives it. -/
theorem connected_frame_not_immediate_counterexample :
    (handleChatStreamTrace true).take 3 =
      [.registerSession, .connectStart, .connectResolved true] ∧
    Action.emit false connectedFrame ∉ (handleChatStreamTrace true).take 3 ∧
    Action.emit true connectedFrame ∉ (handleChatStreamTrace true).take 3 ∧
    Action.emit false connectedFrame ∈ handleChatStreamTrace true ∧
    Action.emit false connectedFrame ∉ handleChatStreamTrace false ∧
    Action.emit true connectedFrame ∉ handleChatStreamTrace false := by
  decide

/-- C3 as amended: the `{"type":"connected"}` frame is sent exactly once
per successful connection, and only after the awaited upstream connect has
resolved successfully; when the upstream handshake fails, it is never
sent. -/
theorem connected_frame_after_upstream_established :
    ((handleChatStreamTrace true).filter
        (fun a => decide (a = .emit false connectedFrame))).length = 1 ∧
    ((handleChatStreamTrace true).filter
        (fun a => decide (a = .emit true connectedFrame))).length = 0 ∧
    (handleChatStreamTrace true).take 3 =
      [.registerSession, .connectStart, .connectResolved true] ∧
    Action.emit false connectedFrame ∉ (handleChatStreamTrace true).take 3 ∧
    ((handleChatStreamTrace false).filter
        (fun a => decide (a = .emit false connectedFrame) ||
          decide (a = .emit true connectedFrame))).length = 0 := by
  decide

/-- C5: the `response.text.delta` handler of the active service sends the
delta to the client as `{ type: 'assistant.message.delta', text: <delta> }`
— not as the wire protocol frame `{ type: 'text.delta', delta: <delta> }` —
and the repository's own client leaves its state unchanged on that frame,
so the incremental update is silently lost; the sibling transport
implementation translates the same upstream event to the
`{ type: 'text.delta', delta: <delta> }` frame the client understands. -/
theorem text_delta_sent_as_assistant_message_delta :
    onUpstreamEvent activeState 1 (.textDelta (some "Hi")) =
      [{ type := "assistant.message.delta", text := some "Hi" }] ∧
    (onUpstreamEvent activeState 1 (.textDelta (some "Hi"))).filter
        (fun f => decide (f.type = "text.delta")) = [] ∧
    (∀ ui : ChatUI.UIState,
        ChatUI.handleServerMessage ui
          { type := "assistant.message.delta", text := some "Hi" } = ui) ∧
    BrowserChatTransportLayer.send true 1
        { type := "response.text.delta", delta := some "Hi" } =
      [{ type := "text.delta", delta := some "Hi" }] := by
  refine ⟨by decide, by decide, ?_, by decide⟩
  intro ui
  exact handleServerMessage_assistantMessageDelta ui (some "Hi")

/-- Counterexample to C7: if the client socket closes while the upstream
handshake is still pending, the controller close listener (installed only
after the handshake resolves) never fires, so the session reaches the
terminal `disconnected` status yet stays in the registry map for good —
the registry then contains a closed session and `activeSessions`
overcounts. -/
theorem registry_keeps_closed_session_counterexample :
    (runConn initConn [.start, .clientClose, .connectResolved true]).1.inRegistry = true ∧
    (runConn initConn [.start, .clientClose, .connectResolved true]).1.session.status =
      .disconnected ∧
    ¬ registryInvariant (runConn initConn [.start, .clientClose, .connectResolved true]).1 := by
  unfold registryInvariant
  decide

/-- C7 as amended: the registry entry is inserted at session creation and
removed by the controller close listener, which is installed only once the
upstream handshake has resolved; along the normal lifecycle — handshake
resolution (successful or failed) before any client close — the
registry-iff-not-closed invariant holds at every step.  It fails only when
the client closes before the handshake resolves (see the
counterexample). -/
theorem registry_invariant_normal_lifecycle :
    ∀ ok : Bool,
      registryInvariant initConn ∧
      registryInvariant (runConn initConn [.start]).1 ∧
      registryInvariant (runConn initConn [.start, .connectResolved ok]).1 ∧
      registryInvariant (runConn initConn [.start, .connectResolved ok, .clientClose]).1 := by
  unfold registryInvariant
  decide

/-- The teardown bookkeeping of an active session: the registry holds the
entry, the service is connected to both sides, the socket is open. -/
def activeTeardown : Teardown :=
  { reg := true, st := activeState, readyState := 1 }

/-- Any teardown state with the registry entry already absent is a fixed
point of the controller cleanup, with no effects. -/
lemma cleanup_of_removed (t : Teardown) (h : t.reg = false) :
    cleanup t = (t, []) := by
  obtain ⟨r, st, rs⟩ := t
  cases h
  simp [cleanup]

/-- C8: running the controller teardown (close plus registry delete) a
second time is a no-op from any state — the service `close()` is guarded
by its `status` and the registry delete by the presence of the key — and
from the active state the two runs together perform exactly one upstream
release, one browser-socket close and one registry removal, raising no
error (every function involved is total). -/
theorem teardown_idempotent :
    (∀ t : Teardown, cleanup (cleanup t).1 = ((cleanup t).1, [])) ∧
    (cleanup activeTeardown).2 =
      [.releaseUpstream, .closeBrowserSocket, .registryRemove] ∧
    (cleanup (cleanup activeTeardown).1).2 = [] ∧
    (cleanup (cleanup activeTeardown).1).1 = (cleanup activeTeardown).1 := by
  refine ⟨?_, by decide, by decide, by decide⟩
  intro t
  have h1 : (cleanup t).1.reg = false := by simp [cleanup]
  exact cleanup_of_removed _ h1

/-- Counterexample to C9: if the client socket closes while the upstream
handshake is pending (`isConnected` still false), the close path's
`disconnect()` guard skips the release, so the session keeps its upstream
session reference; when the handshake then resolves, the session is even
marked connected to the upstream although its client socket is closed —
the session outlives its client. -/
theorem client_close_mid_handshake_retains_upstream_counterexample :
    (runConn initConn [.start, .clientClose]).1.session.realtimeSession = some 0 ∧
    (runConn initConn [.start, .clientClose]).1.socketOpen = false ∧
    (runConn initConn
        [.start, .clientClose, .connectResolved true]).1.session.realtimeSession = some 0 ∧
    (runConn initConn
        [.start, .clientClose, .connectResolved true]).1.session.isConnected = true := by
  decide

/-- C9 as amended: when the client socket closes while the session holds a
connected upstream session (mid-Active), the close listener drops the
upstream reference and clears the connected flag, so the session retains
no upstream connection — though it only releases the reference, it never
invokes a close on the upstream handle itself; and if the close happens
before the handshake completes, the reference is retained (see the
counterexample). -/
theorem client_close_releases_upstream_when_active (st : SessionState)
    (hconn : st.isConnected = true) (hsess : st.realtimeSession.isSome = true) :
    (onBrowserClose st).1 =
      { realtimeSession := none, isConnected := false, status := .disconnected } := by
  obtain ⟨v, hv⟩ := Option.isSome_iff_exists.mp hsess
  simp [onBrowserClose, disconnect, hconn, hv]

/-- Witness for the amended C9 at the concrete active state. -/
theorem client_close_releases_upstream_when_active_witness :
    (activeState.isConnected = true ∧ activeState.realtimeSession.isSome = true) ∧
    (onBrowserClose activeState).1 =
      { realtimeSession := none, isConnected := false, status := .disconnected } :=
  ⟨⟨by decide, by decide⟩,
   client_close_releases_upstream_when_active activeState (by decide) (by decide)⟩

/-- Every emission record produced by one `sendToBrowser` call is guarded,
was written with `status = 'connected'` and the socket open, and carries
the given frame. -/
lemma guardedEmits_mem (st : SessionState) (so : Bool) (f : Frame) :
    ∀ e ∈ guardedEmits st so f,
      e.guarded = true ∧ e.status = .connected ∧ e.socketOpen = true ∧ e.frame = f := by
  intro e he
  unfold guardedEmits BrowserChatSessionService.sendToBrowser at he
  by_cases h : st.status = .connected ∧ readyOf so = 1
  · rw [if_pos h] at he
    simp only [List.map_cons, List.map_nil, List.mem_singleton] at he
    subst he
    refine ⟨rfl, h.1, ?_, rfl⟩
    cases so with
    | true => rfl
    | false => simp [readyOf] at h
  · rw [if_neg h] at he
    simp at he

/-- Counterexample to C10: the controller writes the `connected` frame
directly with `webSocket.send`, bypassing the `sendToBrowser` guard; when
the client closed during the handshake, that write is performed with the
service status already `disconnected` and the socket no longer open
(`readyState` not 1). -/
theorem unguarded_connected_write_counterexample :
    ({ guarded := false, frame := connectedFrame
       status := .disconnected, socketOpen := false } : EmitRec) ∈
      (runConn initConn [.start, .clientClose, .connectResolved true]).2 := by
  decide

/-- Every emission of one event-loop dispatch obeys the policy: a guarded
emission happened with `status = 'connected'` and the socket open, and the
only unguarded emission is the controller's `connected` frame. -/
lemma stepConn_emit_policy (c : Conn) (ev : Ev) :
    ∀ e ∈ (stepConn c ev).2,
      (e.guarded = true → e.status = .connected ∧ e.socketOpen = true) ∧
      (e.guarded = false → e.frame = connectedFrame) := by
  intro e he
  cases ev with
  | start =>
      simp only [stepConn] at he
      split at he <;> simp at he
  | clientClose =>
      simp only [stepConn] at he
      split at he
      · simp at he
      · split at he <;> simp at he
  | connectResolved ok =>
      simp only [stepConn] at he
      split at he
      · simp at he
      · split at he
        · simp only [List.mem_append, List.mem_singleton] at he
          rcases he with h | h
          · have hm := guardedEmits_mem _ _ _ e h
            exact ⟨fun _ => ⟨hm.2.1, hm.2.2.1⟩,
              fun hg => Bool.noConfusion (hg.symm.trans hm.1)⟩
          · subst h
            exact ⟨fun hg => Bool.noConfusion hg, fun _ => rfl⟩
        · have hm := guardedEmits_mem _ _ _ e he
          exact ⟨fun _ => ⟨hm.2.1, hm.2.2.1⟩,
            fun hg => Bool.noConfusion (hg.symm.trans hm.1)⟩

/-- C10 as amended: along any sequence of event-loop dispatches for a
connection, every write that goes through the `sendToBrowser` guard is
performed only with the service status `connected` and the browser socket
open (otherwise the frame is silently discarded, no exception raised);
the single write that bypasses the guard is the controller's direct
`webSocket.send` of the `connected` frame (see the counterexample for a
bypassing write on a closed socket). -/
theorem frame_emission_guard_policy (evs : List Ev) (e : EmitRec)
    (he : e ∈ (runConn initConn evs).2) :
    (e.guarded = true → e.status = .connected ∧ e.socketOpen = true) ∧
    (e.guarded = false → e.frame = connectedFrame) := by
  suffices h : ∀ c : Conn, ∀ evs : List Ev, ∀ e ∈ (runConn c evs).2,
      (e.guarded = true → e.status = .connected ∧ e.socketOpen = true) ∧
      (e.guarded = false → e.frame = connectedFrame) from
    h initConn evs e he
  intro c evs0
  induction evs0 generalizing c with
  | nil => intro e he; simp [runConn] at he
  | cons ev rest ih =>
      intro e he
      simp only [runConn, List.mem_append] at he
      rcases he with h | h
      · exact stepConn_emit_policy c ev e h
      · exact ih _ e h

/-- Witness for the amended C10: the guarded `openai_connected` emission
of a successful handshake with the socket still open. -/
theorem frame_emission_guard_policy_witness :
    (({ guarded := true, frame := openaiConnectedFrame
        status := .connected, socketOpen := true } : EmitRec) ∈
      (runConn initConn [.start, .connectResolved true]).2) ∧
    (Status.connected = .connected ∧ true = true) :=
  ⟨by decide,
   (frame_emission_guard_policy [.start, .connectResolved true]
      { guarded := true, frame := openaiConnectedFrame
        status := .connected, socketOpen := true } (by decide)).1 rfl⟩

end Claims

end AICallCenter
